import Mathlib

/-!
Shallow embedding of the integration-test harness in `pytest_mock.py`:
the structured logger (`ai_log`), the error classifier
(`ai_dynamic_error_handling`), the HTTP action helpers (`new_user`,
`get_user_info`, `chat_completion`, `chat_completion_streaming`) and the
test scenarios (`test_user_new`, `test_user_info`, `test_user_update`,
`test_users_budgets_reset`).

Network I/O is modelled by passing the `HttpResp` the server answers with
as an explicit argument; logging is modelled as a returned list of
`(level, message)` entries; `raise Exception(msg)` is modelled as
`Except.error (Exn.exc msg)`.
-/

/-- A parsed JSON value, as returned by `await response.json()`. -/
inductive JVal where
  | jnull : JVal
  | jbool : Bool → JVal
  | jnum : Int → JVal
  | jstr : String → JVal
  | jarr : List JVal → JVal
  | jobj : List (String × JVal) → JVal
deriving Repr

/-- Python `==` on parsed JSON values: structural equality. -/
def JVal.beq : JVal → JVal → Bool
  | .jnull, .jnull => true
  | .jbool a, .jbool b => a == b
  | .jnum a, .jnum b => a == b
  | .jstr a, .jstr b => a == b
  | .jarr [], .jarr [] => true
  | .jarr (x :: xs), .jarr (y :: ys) => JVal.beq x y && JVal.beq (.jarr xs) (.jarr ys)
  | .jobj [], .jobj [] => true
  | .jobj ((k₁, v₁) :: xs), .jobj ((k₂, v₂) :: ys) =>
      k₁ == k₂ && JVal.beq v₁ v₂ && JVal.beq (.jobj xs) (.jobj ys)
  | _, _ => false

instance jvalBEq : BEq JVal := ⟨JVal.beq⟩

/-- Field access `j["k"]` on a parsed JSON object (`none` models `KeyError`). -/
def JVal.getField : JVal → String → Option JVal
  | .jobj fs, k => fs.lookup k
  | _, _ => none

/-- An HTTP exchange's observable response: `response.status`,
`await response.text()` and `await response.json()`. -/
structure HttpResp where
  status : Nat
  text : String
  json : JVal
deriving Repr

/-- A Python exception, carrying the message it was raised with
(`raise Exception(msg)` / `AssertionError` / `KeyError`). -/
inductive Exn where
  | exc : String → Exn
deriving Repr, DecidableEq

/-- The four logging levels the `logging` module is invoked with. -/
inductive LogLevel where
  | info | error | debug | warning
deriving Repr, DecidableEq

/-- One emitted log line: its level and its message. -/
abbrev LogEntry := LogLevel × String

/-- Function `ai_log` (lines 15-24): dispatches on the `level` string; `"info"`,
`"error"` and `"debug"` are matched explicitly and everything else falls to
the `else` branch, which logs at warning level with the
`Unknown log level` note embedding the original message. Returns only its
log output: the Python function returns `None` and cannot raise. -/
def ai_log (message : String) (level : String) : List LogEntry :=
  if level = "info" then [(LogLevel.info, message)]
  else if level = "error" then [(LogLevel.error, message)]
  else if level = "debug" then [(LogLevel.debug, message)]
  else [(LogLevel.warning, "Unknown log level: " ++ level ++ ". Message: " ++ message)]

/-- The `ErrorReport` dict `{"status_code": ..., "error_message": ...}`
returned by the classifier. -/
structure ErrorReport where
  status_code : Nat
  error_message : String
deriving Repr, DecidableEq

/-- The `error_messages` table lookup with its `.get` default
(lines 29-36): five canned messages, otherwise
`f"Unexpected error: {status_code}"`. -/
def error_message_for (status_code : Nat) : String :=
  if status_code = 400 then "Bad Request: The server could not understand the request."
  else if status_code = 401 then "Unauthorized: Access is denied due to invalid credentials."
  else if status_code = 403 then "Forbidden: You don't have permission to access this resource."
  else if status_code = 404 then "Not Found: The requested resource could not be found."
  else if status_code = 500 then "Internal Server Error: The server encountered an error."
  else "Unexpected error: " ++ toString status_code

/-- Function `ai_dynamic_error_handling` (lines 27-38): looks up the message for the
status code, logs `f"Error occurred: {error_message}\nResponse: {response_text}"`
at `error` level via `ai_log`, and returns the report dict. -/
def ai_dynamic_error_handling (status_code : Nat) (response_text : String) :
    ErrorReport × List LogEntry :=
  let error_message := error_message_for status_code
  (⟨status_code, error_message⟩,
    ai_log ("Error occurred: " ++ error_message ++ "\nResponse: " ++ response_text) "error")

/-- An HTTP request as the helpers assemble it: URL, headers, JSON body. -/
structure Request where
  url : String
  headers : List (String × String)
  body : JVal
deriving Repr

/-- Serialization of an optional Python number (`None` becomes JSON null). -/
def optIntJ : Option Int → JVal
  | none => JVal.jnull
  | some n => JVal.jnum n

/-- Serialization of an optional Python string (`None` becomes JSON null). -/
def optStrJ : Option String → JVal
  | none => JVal.jnull
  | some s => JVal.jstr s

/-- The POST request `new_user` sends (lines 42-53): the `/user/new` URL,
the admin bearer header, the fixed `models` list and `aliases` map, a
`None` duration, the given budget and duration, and a `user_id` entry added
only when `user_id is not None`. -/
def new_user_request (user_id : Option String) (budget : Option Int)
    (budget_duration : Option String) : Request where
  url := "http://0.0.0.0:4000/user/new"
  headers := [("Authorization", "Bearer sk-1234"), ("Content-Type", "application/json")]
  body := JVal.jobj
    ([("models", JVal.jarr [JVal.jstr "azure-models"]),
      ("aliases", JVal.jobj [("mistral-7b", JVal.jstr "gpt-3.5-turbo")]),
      ("duration", JVal.jnull),
      ("max_budget", optIntJ budget),
      ("budget_duration", optStrJ budget_duration)] ++
     match user_id with
     | some u => [("user_id", JVal.jstr u)]
     | none => [])

/-- The message of the exception `new_user` raises on a non-200 status
(line 64): `f"Request {i} did not return a 200 status code: {status}"`. -/
def unexpected_status_msg (i : Nat) (status : Nat) : String :=
  "Request " ++ toString i ++ " did not return a 200 status code: " ++ toString status

/-- Response handling of `new_user` (lines 55-66) on the server's answer
`resp`: log the response at info level; on a non-200 status route the
response through `ai_dynamic_error_handling` and raise; on 200 return the
parsed JSON body. -/
def new_user (i : Nat) (resp : HttpResp) : Except Exn JVal × List LogEntry :=
  let logs1 := ai_log ("Response " ++ toString i ++ " (Status code: " ++
    toString resp.status ++ "): " ++ resp.text) "info"
  if resp.status ≠ 200 then
    let classified := ai_dynamic_error_handling resp.status resp.text
    (Except.error (Exn.exc (unexpected_status_msg i resp.status)), logs1 ++ classified.2)
  else
    (Except.ok resp.json, logs1)

/-- The URL `get_user_info` targets (lines 83-86): the bare listing URL when
`view_all is True`, otherwise the single-user URL with the `user_id` query. -/
def get_user_info_url (get_user : String) (view_all : Option Bool) : String :=
  if view_all = some true then "http://0.0.0.0:4000/user/info"
  else "http://0.0.0.0:4000/user/info?user_id=" ++ get_user

/-- The GET request `get_user_info` sends (lines 83-90), authenticated as
`call_user`. -/
def get_user_info_request (get_user : String) (call_user : String)
    (view_all : Option Bool) : Request where
  url := get_user_info_url get_user view_all
  headers := [("Authorization", "Bearer " ++ call_user), ("Content-Type", "application/json")]
  body := JVal.jnull

/-- A value `get_user_info` returns: in Python the same variable holds
either the bare non-200 status integer (`return status`) or the parsed
JSON body (`return await response.json()`). -/
abbrev UserInfoResult := Sum Nat JVal

/-- Response handling of `get_user_info` (lines 92-104) on the server's
answer `resp`: log the response at info level; on a non-200 status route
the response through `ai_dynamic_error_handling`, then return the status
when `call_user != get_user` and otherwise log the pair at error level and
raise; on 200 return the parsed JSON body. -/
def get_user_info (get_user : String) (call_user : String) (resp : HttpResp) :
    Except Exn UserInfoResult × List LogEntry :=
  let logs1 := ai_log ("User info response for " ++ get_user ++ ": " ++ resp.text) "info"
  if resp.status ≠ 200 then
    let classified := ai_dynamic_error_handling resp.status resp.text
    if call_user ≠ get_user then
      (Except.ok (Sum.inl resp.status), logs1 ++ classified.2)
    else
      let logs3 := ai_log ("call_user: " ++ call_user ++ "; get_user: " ++ get_user) "error"
      (Except.error (Exn.exc ("Request did not return a 200 status code: " ++
        toString resp.status)), logs1 ++ classified.2 ++ logs3)
  else
    (Except.ok (Sum.inr resp.json), logs1)

/-- Python `KeyError` raised by a subscript `d["field"]` on a missing key. -/
def pyKeyErr (field : String) : Exn := Exn.exc ("KeyError: " ++ field)

/-- The subscript `key_gen["key"]` followed by its use as a bearer-key
string. Every response the scenarios consume carries the key as a JSON
string; a missing field models Python's `KeyError`. -/
def jstrField (j : JVal) (field : String) : Except Exn String :=
  match j.getField field with
  | some (JVal.jstr s) => Except.ok s
  | some _ => Except.error (Exn.exc ("non-string field: " ++ field))
  | none => Except.error (pyKeyErr field)

/-- The exception a failed Python `assert` raises. -/
def assertionError : Exn := Exn.exc "AssertionError"

/-- Python's `==` between a `get_user_info` result and an integer literal:
a returned status integer compares as an integer; a parsed JSON body equals
the integer exactly when it is that bare number (Python `True`/`False`
compare as `1`/`0`); any other body compares unequal. -/
def pyEqNat : UserInfoResult → Nat → Bool
  | Sum.inl s, n => s == n
  | Sum.inr (JVal.jnum m), n => m == (n : Int)
  | Sum.inr (JVal.jbool b), n => (if b then (1 : Int) else 0) == (n : Int)
  | Sum.inr _, _ => false

/-- The task indices of `test_user_new` (line 75): `range(1, 11)`. -/
def test_user_new_indices : List Nat := List.range' 1 10

/-- The requests `test_user_new` issues: one `new_user` POST per index,
with no explicit `user_id`, budget or duration. -/
def test_user_new_requests : List Request :=
  test_user_new_indices.map (fun _ => new_user_request none none none)

/-- Model of `asyncio.gather` over the tasks' outcomes (line 76): succeeds with
every task's value when all succeeded, and surfaces an exception when any
task raised. -/
def gather : List (Except Exn JVal) → Except Exn (List JVal)
  | [] => Except.ok []
  | Except.error e :: _ => Except.error e
  | Except.ok v :: rest =>
    match gather rest with
    | Except.error e => Except.error e
    | Except.ok vs => Except.ok (v :: vs)

/-- Scenario `test_user_new` (lines 69-76): fan out the ten `new_user` calls and
gather; `env i` is the server's response to request `i`. -/
def test_user_new (env : Nat → HttpResp) : Except Exn (List JVal) :=
  gather (test_user_new_indices.map fun i => (new_user i (env i)).1)

/-- The generated unique identifier of `test_user_info` (line 115):
`f"krrish_{time.time()}@berri.ai"`, with the clock reading passed in as
`ts`. -/
def krrish_id (ts : String) : String := "krrish_" ++ ts ++ "@berri.ai"

/-- Scenario `test_user_info` (lines 107-129): create the user `krrish_<ts>@berri.ai`,
look it up as admin (`sk-1234`), as the user's own key, then create a
fresh user and look the first user up with that unrelated key, finally
`assert status == 403`. The five `HttpResp` arguments are the server's
answers to the five calls in order. -/
def test_user_info (ts : String)
    (rCreate rAdmin rSelf rCreate2 rRandom : HttpResp) : Except Exn Unit := do
  let get_user := krrish_id ts
  let key_gen ← (new_user 0 rCreate).1
  let key ← jstrField key_gen "key"
  let _ ← (get_user_info get_user "sk-1234" rAdmin).1
  let _ ← (get_user_info get_user key rSelf).1
  let key_gen2 ← (new_user 0 rCreate2).1
  let random_key ← jstrField key_gen2 "key"
  let status ← (get_user_info get_user random_key rRandom).1
  if pyEqNat status 403 then pure () else Except.error assertionError

/-- Scenario `test_user_update` (lines 132-139): the body is `pass` — no request
issued, no log emitted, no assertion, immediate success. -/
def test_user_update : Except Exn Unit × List Request × List LogEntry :=
  (Except.ok (), [], [])

/-- The mutable state of the poll loop in `test_users_budgets_reset`
(lines 161-173): the counter `i`, the last fetched `reset_at_new_value`,
and whether the loop is still running (it stops via `break` or via the
guard `i < 3` failing). -/
structure BudgetLoopState where
  i : Nat
  reset_at_new_value : Option JVal
  running : Bool
deriving Repr

/-- One pass of the `while i < 3` loop (lines 163-173) when the poll
fetched the value `fetched`: re-check the guard, store the fetched value,
then `try: assert reset_at_init_value != reset_at_new_value; break` —
on success `break` exits, and on failure the `except:` branch evaluates
the expression `i + 1` and discards its value, leaving `i` unchanged. -/
def budget_reset_loop_iter (reset_at_init_value : JVal) (fetched : JVal)
    (s : BudgetLoopState) : BudgetLoopState :=
  if s.running then
    if s.i < 3 then
      if reset_at_init_value == fetched then
        { s with reset_at_new_value := some fetched, i := s.i }
      else
        { s with reset_at_new_value := some fetched, running := false }
    else { s with running := false }
  else s

/-- The loop state after `n` passes, where `fetched k` is the
`budget_reset_at` value the `k`-th poll parses out of `get_user_info`
(lines 165-168); the loop enters with `i = 0` and
`reset_at_new_value = None` (lines 161-162). -/
def budget_reset_loop_state (reset_at_init_value : JVal) (fetched : Nat → JVal) :
    Nat → BudgetLoopState
  | 0 => { i := 0, reset_at_new_value := none, running := true }
  | n + 1 => budget_reset_loop_iter reset_at_init_value (fetched n)
      (budget_reset_loop_state reset_at_init_value fetched n)

/-- The request payload `chat_completion` / `chat_completion_streaming`
build (lines 177-188 and 193-201): a client from `key` alone against the
fixed base URL, the two-message prompt stamped with the clock reading
`now`, and the `stream` flag. The `session` argument of both helpers never
reaches this payload. -/
structure ChatRequest where
  api_key : String
  base_url : String
  model : String
  messages : List (String × String)
  stream : Bool
deriving Repr, DecidableEq

/-- Helper `chat_completion` (lines 177-190): builds its own `AsyncOpenAI` client
from `key`, sends the non-streaming request, and logs the response at info
level. `session` is a parameter of the Python function but its body never
uses it; `model` defaults to `"gpt-4"` at the call sites. -/
def chat_completion {σ : Type} (session : σ) (key : String) (model : String)
    (now : String) (response : String) : ChatRequest × List LogEntry :=
  ({ api_key := key, base_url := "http://0.0.0.0:4000", model := model,
     messages := [("system", "You are a helpful assistant"), ("user", "Hello! " ++ now)],
     stream := false },
   ai_log ("Chat completion response: " ++ response) "info")

/-- Helper `chat_completion_streaming` (lines 193-204): same client and prompt
with `stream: True`; consumes the chunk sequence, logging each chunk at
info level, and produces no aggregate value. `session` is again unused by
the body. -/
def chat_completion_streaming {σ : Type} (session : σ) (key : String) (model : String)
    (now : String) (chunks : List String) : ChatRequest × List LogEntry :=
  ({ api_key := key, base_url := "http://0.0.0.0:4000", model := model,
     messages := [("system", "You are a helpful assistant"), ("user", "Hello! " ++ now)],
     stream := true },
   (chunks.map fun c => ai_log ("Streaming chunk received: " ++ c) "info").flatten)

/-- Whether an `Except` outcome is a success (the call did not raise). -/
def isOkE {α : Type} : Except Exn α → Bool
  | Except.ok _ => true
  | Except.error _ => false

/-- C2, counterexample: at status 599 the classifier's generic message is
`"Unexpected error: 599"` with a capital U, not the exact string
`"unexpected error: 599"` the claim states. -/
theorem classifier_generic_message_counterexample :
    (ai_dynamic_error_handling 599 "some body").1.error_message = "Unexpected error: 599" ∧
    (ai_dynamic_error_handling 599 "some body").1.error_message ≠ "unexpected error: 599" := by
  refine ⟨rfl, ?_⟩
  decide

/-- C2, amended: for every status code and body the classifier returns an
`ErrorReport` pairing the input status code with the canned message for
the known codes (400, 401, 403, 404, 500) and with the generic
`"Unexpected error: {code}"` message for any other code, and its only
side effect is one log entry at error level, emitted before returning. -/
theorem classifier_report_contract (status_code : Nat) (response_text : String) :
    (ai_dynamic_error_handling status_code response_text).1.status_code = status_code ∧
    (ai_dynamic_error_handling status_code response_text).1.error_message =
      (if status_code = 400 then "Bad Request: The server could not understand the request."
       else if status_code = 401 then "Unauthorized: Access is denied due to invalid credentials."
       else if status_code = 403 then "Forbidden: You don't have permission to access this resource."
       else if status_code = 404 then "Not Found: The requested resource could not be found."
       else if status_code = 500 then "Internal Server Error: The server encountered an error."
       else "Unexpected error: " ++ toString status_code) ∧
    (ai_dynamic_error_handling status_code response_text).2 =
      [(LogLevel.error, "Error occurred: " ++ error_message_for status_code ++
        "\nResponse: " ++ response_text)] := by
  refine ⟨rfl, rfl, ?_⟩
  simp [ai_dynamic_error_handling, ai_log]

/-- C3, counterexample: the level `"warning"` is not matched explicitly by
`ai_log`, so a `"warning"`-level call is written with the unknown-level
note wrapped around the message instead of the plain message the claim
states. -/
theorem ai_log_warning_level_counterexample :
    ai_log "hello" "warning" =
      [(LogLevel.warning, "Unknown log level: warning. Message: hello")] ∧
    ai_log "hello" "warning" ≠ [(LogLevel.warning, "hello")] := by
  refine ⟨rfl, ?_⟩
  decide

/-- C3, amended: for the levels `"info"`, `"error"` and `"debug"` the
logger writes the message at exactly that level; for any other level —
including `"warning"` — it writes at warning level with a note embedding
the original level and message; in all cases it emits exactly one entry
and never raises. -/
theorem ai_log_level_contract (message level : String) :
    (level = "info" → ai_log message level = [(LogLevel.info, message)]) ∧
    (level = "error" → ai_log message level = [(LogLevel.error, message)]) ∧
    (level = "debug" → ai_log message level = [(LogLevel.debug, message)]) ∧
    (level ≠ "info" → level ≠ "error" → level ≠ "debug" →
      ai_log message level =
        [(LogLevel.warning, "Unknown log level: " ++ level ++ ". Message: " ++ message)]) := by
  refine ⟨?_, ?_, ?_, ?_⟩
  · intro h; simp [ai_log, h]
  · intro h; simp [ai_log, h]
  · intro h; simp [ai_log, h]
  · intro h1 h2 h3; simp [ai_log, h1, h2, h3]

/-- Witness for the amended C3 at the concrete unmatched level `"trace"`. -/
theorem ai_log_level_contract_witness :
    ai_log "msg" "trace" =
      [(LogLevel.warning, "Unknown log level: trace. Message: msg")] :=
  (ai_log_level_contract "msg" "trace").2.2.2 (by decide) (by decide) (by decide)

/-- C9: `chat_completion` and `chat_completion_streaming` ignore their
`session` argument — for any two sessions, even of different types, and
the same key, model, clock reading and server behaviour, both helpers
issue the identical request and produce the identical outcome. -/
theorem chat_completion_session_irrelevant :
    ∀ (σ₁ σ₂ : Type) (s₁ : σ₁) (s₂ : σ₂) (key model now response : String)
      (chunks : List String),
      chat_completion s₁ key model now response =
        chat_completion s₂ key model now response ∧
      chat_completion_streaming s₁ key model now chunks =
        chat_completion_streaming s₂ key model now chunks := by
  intro _ _ _ _ _ _ _ _ _
  exact ⟨rfl, rfl⟩

/-- C10: the body of `test_user_update` is `pass` — the scenario issues no
request, emits no log entry, makes no assertion, and always succeeds. -/
theorem test_user_update_noop :
    test_user_update = (Except.ok (), ([] : List Request), ([] : List LogEntry)) := rfl

/-- C1 as the spec states it, with the target's own access key made
explicit: whatever key `own_key` the external service assigned to
`target_identifier`, a non-200 answer to a caller whose bearer is not that
key comes back as the status, a non-200 answer to a caller using the
target's own key raises, and a 200 answer comes back as parsed JSON. -/
def claimC1_spec : Prop :=
  ∀ (target_identifier caller_auth own_key : String) (resp : HttpResp),
    (resp.status ≠ 200 → caller_auth ≠ own_key →
      (get_user_info target_identifier caller_auth resp).1 = Except.ok (Sum.inl resp.status)) ∧
    (resp.status ≠ 200 → caller_auth = own_key →
      ∃ e, (get_user_info target_identifier caller_auth resp).1 = Except.error e) ∧
    (resp.status = 200 →
      (get_user_info target_identifier caller_auth resp).1 = Except.ok (Sum.inr resp.json))

/-- C1, counterexample: a user `krrish_1@berri.ai` whose own key is
`sk-user-key` queries their own record with that key and the server
answers 500; the code compares the bearer against the identifier string,
finds them different, and returns 500 as data instead of raising — so the
spec's policy, stated in terms of the target's own key, is false. -/
theorem get_user_info_self_denial_counterexample :
    (get_user_info "krrish_1@berri.ai" "sk-user-key" ⟨500, "err", JVal.jnull⟩).1 =
      Except.ok (Sum.inl 500) ∧ ¬ claimC1_spec := by
  refine ⟨rfl, ?_⟩
  intro h
  obtain ⟨e, he⟩ :=
    (h "krrish_1@berri.ai" "sk-user-key" "sk-user-key" ⟨500, "err", JVal.jnull⟩).2.1
      (by decide) rfl
  rw [show (get_user_info "krrish_1@berri.ai" "sk-user-key" ⟨500, "err", JVal.jnull⟩).1 =
    (Except.ok (Sum.inl 500) : Except Exn UserInfoResult) from rfl] at he
  exact Except.noConfusion he

/-- C1, amended: `get_user_info`'s raise/return split is decided by literal
string equality between the caller's bearer and the target identifier, not
by ownership of the target's key: on a non-200 status it returns the
status as data when `call_user ≠ get_user`, raises the non-200 exception
when `call_user = get_user`, and on 200 it returns the parsed JSON body. -/
theorem get_user_info_status_policy (get_user call_user : String) (resp : HttpResp) :
    (resp.status ≠ 200 → call_user ≠ get_user →
      (get_user_info get_user call_user resp).1 = Except.ok (Sum.inl resp.status)) ∧
    (resp.status ≠ 200 → call_user = get_user →
      (get_user_info get_user call_user resp).1 =
        Except.error (Exn.exc ("Request did not return a 200 status code: " ++
          toString resp.status))) ∧
    (resp.status = 200 →
      (get_user_info get_user call_user resp).1 = Except.ok (Sum.inr resp.json)) := by
  refine ⟨?_, ?_, ?_⟩
  · intro h1 h2; simp [get_user_info, h1, h2]
  · intro h1 h2; simp [get_user_info, h1, h2]
  · intro h1; simp [get_user_info, h1]

/-- Witness for the amended C1: a 403 answer to an unrelated caller is
returned as the value 403. -/
theorem get_user_info_status_policy_witness :
    (get_user_info "krrish_1@berri.ai" "sk-other" ⟨403, "denied", JVal.jnull⟩).1 =
      Except.ok (Sum.inl 403) :=
  (get_user_info_status_policy "krrish_1@berri.ai" "sk-other"
    ⟨403, "denied", JVal.jnull⟩).1 (by decide) (by decide)

/-- C4: on a 200 answer `new_user` returns the parsed created-user JSON;
on any other status it first routes the response through
`ai_dynamic_error_handling` (whose error-level log entry follows the
helper's own info log) and then raises the exception carrying the request
index and the status code. -/
theorem new_user_contract (i : Nat) (resp : HttpResp) :
    (resp.status = 200 → (new_user i resp).1 = Except.ok resp.json) ∧
    (resp.status ≠ 200 →
      (new_user i resp).1 = Except.error (Exn.exc (unexpected_status_msg i resp.status)) ∧
      (new_user i resp).2 =
        ai_log ("Response " ++ toString i ++ " (Status code: " ++
          toString resp.status ++ "): " ++ resp.text) "info" ++
        (ai_dynamic_error_handling resp.status resp.text).2) := by
  refine ⟨?_, ?_⟩
  · intro h; simp [new_user, h]
  · intro h; refine ⟨?_, ?_⟩ <;> simp [new_user, h]

/-- Witness for C4: request index 7 answered with a 500 raises the
exception carrying both the index and the code. -/
theorem new_user_contract_witness :
    (new_user 7 ⟨500, "oops", JVal.jnull⟩).1 =
      Except.error (Exn.exc "Request 7 did not return a 200 status code: 500") :=
  ((new_user_contract 7 ⟨500, "oops", JVal.jnull⟩).2 (by decide)).1

/-- C8: the `new_user` POST targets `/user/new` with the admin bearer
token, and its body carries the fixed model list, the fixed alias map, a
null duration, the given budget and budget duration (null when absent),
and a `user_id` field exactly when an identifier was supplied. -/
theorem new_user_request_contract (user_id : Option String) (budget : Option Int)
    (budget_duration : Option String) :
    (new_user_request user_id budget budget_duration).url = "http://0.0.0.0:4000/user/new" ∧
    (new_user_request user_id budget budget_duration).headers =
      [("Authorization", "Bearer sk-1234"), ("Content-Type", "application/json")] ∧
    (new_user_request user_id budget budget_duration).body.getField "models" =
      some (JVal.jarr [JVal.jstr "azure-models"]) ∧
    (new_user_request user_id budget budget_duration).body.getField "aliases" =
      some (JVal.jobj [("mistral-7b", JVal.jstr "gpt-3.5-turbo")]) ∧
    (new_user_request user_id budget budget_duration).body.getField "duration" =
      some JVal.jnull ∧
    (new_user_request user_id budget budget_duration).body.getField "max_budget" =
      some (optIntJ budget) ∧
    (new_user_request user_id budget budget_duration).body.getField "budget_duration" =
      some (optStrJ budget_duration) ∧
    (new_user_request user_id budget budget_duration).body.getField "user_id" =
      Option.map JVal.jstr user_id := by
  cases user_id <;>
    simp [new_user_request, JVal.getField, List.lookup]

/-- C5: evaluation of the poll loop of `test_users_budgets_reset` on a run
where `budget_reset_at` never changes — every poll fetches the same
timestamp the loop started from. Because the `except:` branch evaluates
`i + 1` without assigning it, `i` stays 0 after every pass, the guard
`i < 3` never fails, the `break` is never reached, and the loop is still
running after any number of passes: the final assertion on line 174 is
never reached, contradicting the bounded three-attempt retry the scenario
is documented to perform. -/
theorem budget_reset_loop_never_exits (n : Nat) :
    (budget_reset_loop_state (JVal.jstr "2024-01-01T00:00:00")
        (fun _ => JVal.jstr "2024-01-01T00:00:00") n).running = true ∧
    (budget_reset_loop_state (JVal.jstr "2024-01-01T00:00:00")
        (fun _ => JVal.jstr "2024-01-01T00:00:00") n).i = 0 := by
  induction n with
  | zero => exact ⟨rfl, rfl⟩
  | succ n ih =>
    obtain ⟨hr, hi⟩ := ih
    refine ⟨?_, ?_⟩ <;>
      simp [budget_reset_loop_state, budget_reset_loop_iter, hr, hi,
        BEq.beq, jvalBEq, JVal.beq]

/-- A `new_user` call succeeds exactly when the server answered 200, in
which case it returns the parsed body. -/
theorem new_user_ok_iff (i : Nat) (resp : HttpResp) :
    (∃ v, (new_user i resp).1 = Except.ok v) ↔ resp.status = 200 := by
  by_cases h : resp.status = 200
  · simp [new_user, h]
  · simp [new_user, h]

/-- Gathering succeeds exactly when every task's outcome is a success. -/
theorem gather_ok_iff (l : List (Except Exn JVal)) :
    (∃ vs, gather l = Except.ok vs) ↔ ∀ r ∈ l, ∃ v, r = Except.ok v := by
  induction l with
  | nil => simp [gather]
  | cons r rest ih =>
    cases r with
    | error e => simp [gather]
    | ok v =>
      cases hg : gather rest with
      | error e =>
        simp only [gather, hg]
        constructor
        · rintro ⟨vs, hvs⟩; exact absurd hvs (by simp)
        · intro hall
          obtain ⟨vs, hvs⟩ := ih.mpr (fun r hr => hall r (List.mem_cons_of_mem _ hr))
          rw [hvs] at hg; exact absurd hg (by simp)
      | ok vs =>
        simp only [gather, hg]
        constructor
        · intro _ r hr
          rcases List.mem_cons.mp hr with h | h
          · exact ⟨v, by rw [h]⟩
          · exact ih.mp ⟨vs, hg⟩ r h
        · intro _; exact ⟨v :: vs, rfl⟩

/-- C7: `test_user_new` launches exactly ten `new_user` tasks, none of
which carries an explicit `user_id` in its request body, gathers all of
them, and succeeds exactly when every one of the ten calls was answered
with status 200. -/
theorem test_user_new_fanout_contract (env : Nat → HttpResp) :
    test_user_new_indices.length = 10 ∧
    (∀ r ∈ test_user_new_requests, r.body.getField "user_id" = none) ∧
    ((∃ vs, test_user_new env = Except.ok vs) ↔
      ∀ i ∈ test_user_new_indices, (env i).status = 200) := by
  refine ⟨rfl, ?_, ?_⟩
  · intro r hr
    obtain ⟨i, _, rfl⟩ := List.mem_map.mp hr
    simp [new_user_request, JVal.getField, List.lookup]
  · rw [test_user_new, gather_ok_iff]
    constructor
    · intro hall i hi
      exact (new_user_ok_iff i (env i)).mp
        (hall _ (List.mem_map.mpr ⟨i, hi, rfl⟩))
    · intro hall r hr
      obtain ⟨i, hi, rfl⟩ := List.mem_map.mp hr
      exact (new_user_ok_iff i (env i)).mpr (hall i hi)

/-- Witness for C7: with every request answered 200 and an empty-object
body, the fan-out scenario succeeds. -/
theorem test_user_new_fanout_contract_witness :
    ∃ vs, test_user_new (fun _ => ⟨200, "ok", JVal.jobj []⟩) = Except.ok vs :=
  (test_user_new_fanout_contract (fun _ => ⟨200, "ok", JVal.jobj []⟩)).2.2.mpr
    (fun _ _ => rfl)

/-- C6: in a run where the two creations return 200 with a key and the
admin and self lookups return 200, the multi-actor scenario targets the
identifier `krrish_<ts>@berri.ai` and succeeds exactly when the third
lookup — made with the freshly created unrelated user's key — comes back
as a value Python-equal to 403 (in particular the denied status 403); any
other third-lookup outcome fails the scenario. -/
theorem test_user_info_assert_contract (ts key₀ random_key : String)
    (rCreate rAdmin rSelf rCreate2 rRandom : HttpResp)
    (h0 : rCreate.status = 200)
    (hk : rCreate.json.getField "key" = some (JVal.jstr key₀))
    (h1 : rAdmin.status = 200)
    (h2 : rSelf.status = 200)
    (h3 : rCreate2.status = 200)
    (hr : rCreate2.json.getField "key" = some (JVal.jstr random_key)) :
    krrish_id ts = "krrish_" ++ ts ++ "@berri.ai" ∧
    (test_user_info ts rCreate rAdmin rSelf rCreate2 rRandom = Except.ok () ↔
      ∃ status, (get_user_info (krrish_id ts) random_key rRandom).1 = Except.ok status ∧
        pyEqNat status 403 = true) := by
  refine ⟨rfl, ?_⟩
  have e0 : (new_user 0 rCreate).1 = Except.ok rCreate.json := by simp [new_user, h0]
  have e1 : jstrField rCreate.json "key" = Except.ok key₀ := by simp [jstrField, hk]
  have e2 : (get_user_info (krrish_id ts) "sk-1234" rAdmin).1 =
      Except.ok (Sum.inr rAdmin.json) := by simp [get_user_info, h1]
  have e3 : (get_user_info (krrish_id ts) key₀ rSelf).1 =
      Except.ok (Sum.inr rSelf.json) := by simp [get_user_info, h2]
  have e4 : (new_user 0 rCreate2).1 = Except.ok rCreate2.json := by simp [new_user, h3]
  have e5 : jstrField rCreate2.json "key" = Except.ok random_key := by
    simp [jstrField, hr]
  rw [test_user_info]
  simp only [e0, e1, e2, e3, e4, e5, Bind.bind, Except.bind]
  cases hcase : (get_user_info (krrish_id ts) random_key rRandom).1 with
  | error e => simp
  | ok status =>
    by_cases hp : pyEqNat status 403 = true
    · simp [hp, Pure.pure, Except.pure]
    · simp [hp, assertionError]

/-- Witness for C6: a run where both creations succeed, the admin and self
lookups return 200, and the unrelated-key lookup is denied with 403 makes
the scenario pass. -/
theorem test_user_info_assert_contract_witness :
    test_user_info "1700000000.0"
      ⟨200, "ok", JVal.jobj [("key", JVal.jstr "sk-self")]⟩
      ⟨200, "info", JVal.jobj []⟩
      ⟨200, "info", JVal.jobj []⟩
      ⟨200, "ok", JVal.jobj [("key", JVal.jstr "sk-rand")]⟩
      ⟨403, "denied", JVal.jnull⟩ = Except.ok () :=
  ((test_user_info_assert_contract "1700000000.0" "sk-self" "sk-rand"
      ⟨200, "ok", JVal.jobj [("key", JVal.jstr "sk-self")]⟩
      ⟨200, "info", JVal.jobj []⟩
      ⟨200, "info", JVal.jobj []⟩
      ⟨200, "ok", JVal.jobj [("key", JVal.jstr "sk-rand")]⟩
      ⟨403, "denied", JVal.jnull⟩
      rfl rfl rfl rfl rfl rfl).2).mpr
    ⟨Sum.inl 403, rfl, rfl⟩
